import Mathlib

set_option autoImplicit false

namespace Klaviyo

/-- JSON values, the Lean counterpart of the open-ended
`map[string]interface\x7b\x7d` values the Go client stores in attribute and
property maps. Objects are association lists. -/
inductive Json where
| null
| str (s : String)
| num (n : Int)
| bool (b : Bool)
| arr (elems : List Json)
| obj (fields : List (String × Json))

/-- Association-list model of a Go `map[string]...` together with `m[k] = v`
assignment: the previous binding of the key is dropped and the new pair is
appended. Only lookup behaviour matters (Go maps are unordered). -/
def assocSet {α : Type} (m : List (String × α)) (key : String) (v : α) :
    List (String × α) :=
  (m.filter fun p => decide (p.1 ≠ key)) ++ [(key, v)]

/-- Lookup in the association-list model of a Go map. -/
def assocGet {α : Type} (m : List (String × α)) (key : String) : Option α :=
  match m with
  | [] => none
  | p :: rest => if p.1 = key then some p.2 else assocGet rest key

theorem assocGet_append {α : Type} (m₁ m₂ : List (String × α)) (k : String) :
    assocGet (m₁ ++ m₂) k = ((assocGet m₁ k).orElse fun _ => assocGet m₂ k) := by
  induction m₁ with
  | nil => rfl
  | cons p rest ih =>
    by_cases h : p.1 = k <;> simp [assocGet, h, ih]

theorem assocGet_filter_ne {α : Type} (m : List (String × α)) (key k : String)
    (h : k ≠ key) :
    assocGet (m.filter fun p => decide (p.1 ≠ key)) k = assocGet m k := by
  induction m with
  | nil => rfl
  | cons p rest ih =>
    by_cases hp : p.1 = key
    · have hfp : ¬((fun p : String × α => decide (p.1 ≠ key)) p = true) := by
        simp [hp]
      rw [List.filter_cons_of_neg (p := fun q : String × α => decide (q.1 ≠ key)) hfp, ih]
      have hpk : ¬(p.1 = k) := by rw [hp]; exact fun hkk => h hkk.symm
      show assocGet rest k = assocGet (p :: rest) k
      simp only [assocGet]
      rw [if_neg hpk]
    · have hfp : (fun p : String × α => decide (p.1 ≠ key)) p = true := by
        simp [hp]
      rw [List.filter_cons_of_pos (p := fun q : String × α => decide (q.1 ≠ key)) hfp]
      simp only [assocGet]
      rw [ih]

theorem assocGet_filter_self {α : Type} (m : List (String × α)) (key : String) :
    assocGet (m.filter fun p => decide (p.1 ≠ key)) key = none := by
  induction m with
  | nil => rfl
  | cons p rest ih =>
    by_cases hp : p.1 = key
    · have hfp : ¬((fun p : String × α => decide (p.1 ≠ key)) p = true) := by
        simp [hp]
      rw [List.filter_cons_of_neg (p := fun q : String × α => decide (q.1 ≠ key)) hfp]
      exact ih
    · have hfp : (fun p : String × α => decide (p.1 ≠ key)) p = true := by
        simp [hp]
      rw [List.filter_cons_of_pos (p := fun q : String × α => decide (q.1 ≠ key)) hfp]
      simp only [assocGet]
      rw [if_neg hp]
      exact ih

theorem assocGet_set {α : Type} (m : List (String × α)) (key k : String) (v : α) :
    assocGet (assocSet m key v) k = if k = key then some v else assocGet m k := by
  by_cases h : k = key
  · subst h
    simp only [assocSet, assocGet_append, assocGet_filter_self, assocGet, if_pos rfl,
      if_true]
    rfl
  · have hkey : ¬(key = k) := fun hk => h hk.symm
    simp only [assocSet, assocGet_append, assocGet_filter_ne _ _ _ h, if_neg h]
    cases hm : assocGet m k <;> simp [assocGet, Option.orElse, hkey]

/-- Resource type constant `profileType` from src/klaviyo.go. -/
def profileType : String := "profile"

/-- Resource type constant `profileBulkImportJobType` from src/klaviyo.go. -/
def profileBulkImportJobType : String := "profile-bulk-import-job"

/-- ProfileData from src/models/profile/updater/updater.go: the accumulator
shared by all profile mutation units. -/
structure ProfileData where
  Attributes : List (String × Json)
  PropertiesToRemove : List String

/-- NewProfileData from src/models/profile/updater/updater.go: a fresh
accumulator with an empty attributes map and a nil unset list. -/
def NewProfileData : ProfileData :=
  { Attributes := [], PropertiesToRemove := [] }

/-- A location mutation unit: each location.With* constructor in the source
sets one fixed key of the nested location map to one value. -/
structure LocationUpdater where
  key : String
  value : Json

/-- location.WithAddress1 from the location package. -/
def WithAddress1 (address1 : String) : LocationUpdater :=
  ⟨"address1", Json.str address1⟩

/-- location.WithAddress2 from the location package. -/
def WithAddress2 (address2 : String) : LocationUpdater :=
  ⟨"address2", Json.str address2⟩

/-- location.WithCity from the location package. -/
def WithCity (city : String) : LocationUpdater :=
  ⟨"city", Json.str city⟩

/-- location.WithCountry from the location package. -/
def WithCountry (country : String) : LocationUpdater :=
  ⟨"country", Json.str country⟩

/-- location.WithLatitude from the location package (float modelled as Int
scaled out; the value itself is irrelevant to the claims). -/
def WithLatitude (latitude : Int) : LocationUpdater :=
  ⟨"latitude", Json.num latitude⟩

/-- location.WithLongitude from the location package. -/
def WithLongitude (longitude : Int) : LocationUpdater :=
  ⟨"longitude", Json.num longitude⟩

/-- location.WithRegion from the location package. -/
def WithRegion (region : String) : LocationUpdater :=
  ⟨"region", Json.str region⟩

/-- location.WithZip from the location package. -/
def WithZip (zip : String) : LocationUpdater :=
  ⟨"zip", Json.str zip⟩

/-- location.WithTimezone from the location package. -/
def WithTimezone (timezone : String) : LocationUpdater :=
  ⟨"timezone", Json.str timezone⟩

/-- Apply of a location unit: sets its key in the nested location map. -/
def LocationUpdater.applyTo (u : LocationUpdater)
    (location : List (String × Json)) : List (String × Json) :=
  assocSet location u.key u.value

/-- A properties mutation unit: property.WithValue sets one key-value pair
within the properties map. -/
structure PropertiesUpdater where
  name : String
  value : Json

/-- property.WithValue from src (property package). -/
def WithValue (name : String) (value : Json) : PropertiesUpdater :=
  ⟨name, value⟩

/-- Apply of a properties unit. -/
def PropertiesUpdater.applyTo (u : PropertiesUpdater)
    (properties : List (String × Json)) : List (String × Json) :=
  assocSet properties u.name u.value

/-- The closed set of updater.Profile mutation units offered by the profile
package (With* setters, WithLocation, WithProperties) plus the unset unit.
The unset unit is Modelled from the spec: profile.UnsetProperties is used by
the tests but its definition is not under src; per the spec each such unit
only appends names to the unset-list and never writes an attribute key. -/
inductive ProfileUpdater where
| withEmail (email : String)
| withPhoneNumber (phoneNumber : String)
| withExternalId (externalId : String)
| withAnonymousId (anonymousId : String)
| withFirstName (firstName : String)
| withLastName (lastName : String)
| withOrganization (organization : String)
| withTitle (title : String)
| withImage (image : String)
| withLocation (updaters : List LocationUpdater)
| withProperties (updaters : List PropertiesUpdater)
| unsetProperties (names : List String)

/-- Apply of a profile mutation unit to the shared accumulator, following the
profile package sources: every With* setter assigns exactly one attribute
key; WithLocation and WithProperties build a fresh nested map by applying
their sub-units in order and assign it to the "location" / "properties" key;
the unset unit appends to PropertiesToRemove and leaves attributes alone. -/
def ProfileUpdater.applyTo : ProfileUpdater → ProfileData → ProfileData
| .withEmail email, pd =>
    { pd with Attributes := assocSet pd.Attributes "email" (Json.str email) }
| .withPhoneNumber phoneNumber, pd =>
    { pd with Attributes := assocSet pd.Attributes "phone_number" (Json.str phoneNumber) }
| .withExternalId externalId, pd =>
    { pd with Attributes := assocSet pd.Attributes "external_id" (Json.str externalId) }
| .withAnonymousId anonymousId, pd =>
    { pd with Attributes := assocSet pd.Attributes "anonymous_id" (Json.str anonymousId) }
| .withFirstName firstName, pd =>
    { pd with Attributes := assocSet pd.Attributes "first_name" (Json.str firstName) }
| .withLastName lastName, pd =>
    { pd with Attributes := assocSet pd.Attributes "last_name" (Json.str lastName) }
| .withOrganization organization, pd =>
    { pd with Attributes := assocSet pd.Attributes "organization" (Json.str organization) }
| .withTitle title, pd =>
    { pd with Attributes := assocSet pd.Attributes "title" (Json.str title) }
| .withImage image, pd =>
    { pd with Attributes := assocSet pd.Attributes "image" (Json.str image) }
| .withLocation updaters, pd =>
    { pd with Attributes := (assocSet pd.Attributes "location"
        (Json.obj (updaters.foldl (fun loc u => u.applyTo loc) []))) }
| .withProperties updaters, pd =>
    { pd with Attributes := (assocSet pd.Attributes "properties"
        (Json.obj (updaters.foldl (fun props u => u.applyTo props) []))) }
| .unsetProperties names, pd =>
    { pd with PropertiesToRemove := pd.PropertiesToRemove ++ names }

/-- The attribute keys a unit writes: each setter touches exactly its own
key; the unset unit touches none. -/
def ProfileUpdater.touchedKeys : ProfileUpdater → List String
| .withEmail _ => ["email"]
| .withPhoneNumber _ => ["phone_number"]
| .withExternalId _ => ["external_id"]
| .withAnonymousId _ => ["anonymous_id"]
| .withFirstName _ => ["first_name"]
| .withLastName _ => ["last_name"]
| .withOrganization _ => ["organization"]
| .withTitle _ => ["title"]
| .withImage _ => ["image"]
| .withLocation _ => ["location"]
| .withProperties _ => ["properties"]
| .unsetProperties _ => []

/-- The loop of Client.UpdateProfile / Client.CreateOrUpdateProfile applying
each updater in order to the accumulator. -/
def applyUpdaters (updaters : List ProfileUpdater) (pd : ProfileData) :
    ProfileData :=
  updaters.foldl (fun pd u => u.applyTo pd) pd

theorem applyTo_attributes_untouched (k : String) (u : ProfileUpdater)
    (pd : ProfileData) (hu : k ∉ u.touchedKeys)
    (hpd : assocGet pd.Attributes k = none) :
    assocGet (u.applyTo pd).Attributes k = none := by
  cases u <;>
    simp only [ProfileUpdater.touchedKeys, List.mem_singleton,
      ProfileUpdater.applyTo] at hu ⊢ <;>
    first
    | exact hpd
    | (rw [assocGet_set, if_neg hu]; exact hpd)

theorem applyUpdaters_attributes_untouched (k : String) :
    ∀ (updaters : List ProfileUpdater) (pd : ProfileData),
      (∀ u ∈ updaters, k ∉ u.touchedKeys) →
      assocGet pd.Attributes k = none →
      assocGet (applyUpdaters updaters pd).Attributes k = none := by
  intro updaters
  induction updaters with
  | nil => intro pd _ hpd; exact hpd
  | cons u rest ih =>
    intro pd hus hpd
    show assocGet (applyUpdaters rest (u.applyTo pd)).Attributes k = none
    exact ih (u.applyTo pd) (fun v hv => hus v (List.mem_cons_of_mem u hv))
      (applyTo_attributes_untouched k u pd (hus u (List.mem_cons_self u rest)) hpd)

/-- The request body built by Client.UpdateProfile (src/klaviyo.go 314-361):
attributes from the accumulator, the profile id, the resource type, and an
optional meta map holding the unset list when it is non-empty. -/
structure UpdateProfileRequestData where
  Attributes : List (String × Json)
  Id : String
  ResourceType : String
  Meta : Option Json

/-- updateProfileRequest: the payload Client.UpdateProfile builds after
applying the updaters in order to a fresh accumulator. -/
def updateProfileRequest (profileID : String)
    (updaters : List ProfileUpdater) : UpdateProfileRequestData :=
  let profileData := applyUpdaters updaters NewProfileData
  { Attributes := profileData.Attributes
    Id := profileID
    ResourceType := profileType
    Meta :=
      if profileData.PropertiesToRemove.length > 0 then
        some (Json.obj [("patch_properties",
          Json.obj [("unset", Json.arr (profileData.PropertiesToRemove.map Json.str))])])
      else none }

/-- The request body built by Client.CreateOrUpdateProfile
(src/klaviyo.go 388-433): same accumulator contents posted to the
profile-import upsert endpoint, id omitted when empty. -/
structure UpsertProfileRequestData where
  Attributes : List (String × Json)
  ResourceType : String
  ID : String
  Meta : Option Json

/-- createOrUpdateProfileRequest: the payload Client.CreateOrUpdateProfile
builds after applying the updaters in order to a fresh accumulator. -/
def createOrUpdateProfileRequest (profileID : String)
    (updaters : List ProfileUpdater) : UpsertProfileRequestData :=
  let pd := applyUpdaters updaters NewProfileData
  { Attributes := pd.Attributes
    ResourceType := profileType
    ID := profileID
    Meta :=
      if pd.PropertiesToRemove.length > 0 then
        some (Json.obj [("patch_properties",
          Json.obj [("unset", Json.arr (pd.PropertiesToRemove.map Json.str))])])
      else none }

/-- C1: for any sequence of updater.Profile mutation units applied in order
to a fresh accumulator created by updater.NewProfileData (as done by
Client.UpdateProfile and Client.CreateOrUpdateProfile), every attribute key
that no unit sets is entirely absent from the Attributes mapping of the
request payload: lookup returns none, so the key is never present with a
null, empty or zero value. -/
theorem C1_untouched_keys_absent (updaters : List ProfileUpdater)
    (profileID k : String)
    (h : ∀ u ∈ updaters, k ∉ u.touchedKeys) :
    assocGet (updateProfileRequest profileID updaters).Attributes k = none ∧
    assocGet (createOrUpdateProfileRequest profileID updaters).Attributes k = none := by
  have hbase : assocGet (NewProfileData).Attributes k = none := rfl
  have hmain := applyUpdaters_attributes_untouched k updaters NewProfileData h hbase
  exact ⟨hmain, hmain⟩

/-- C1 witness: a concrete run with three units never writes the untouched
phone_number key. -/
theorem C1_untouched_keys_absent_witness :
    (∀ u ∈ [ProfileUpdater.withEmail "sarah.mason@klaviyo-demo.com",
            ProfileUpdater.withProperties [WithValue "pseudonym" (Json.str "Dr. Octopus")],
            ProfileUpdater.unsetProperties ["skype"]],
        "phone_number" ∉ u.touchedKeys) ∧
    assocGet (updateProfileRequest "01H8HKMDG8F4MN7PSRZ4YQYNVQ"
        [ProfileUpdater.withEmail "sarah.mason@klaviyo-demo.com",
         ProfileUpdater.withProperties [WithValue "pseudonym" (Json.str "Dr. Octopus")],
         ProfileUpdater.unsetProperties ["skype"]]).Attributes "phone_number" = none ∧
    assocGet (createOrUpdateProfileRequest "01H8HKMDG8F4MN7PSRZ4YQYNVQ"
        [ProfileUpdater.withEmail "sarah.mason@klaviyo-demo.com",
         ProfileUpdater.withProperties [WithValue "pseudonym" (Json.str "Dr. Octopus")],
         ProfileUpdater.unsetProperties ["skype"]]).Attributes "phone_number" = none := by
  refine ⟨?_, ?_⟩
  · intro u hu
    fin_cases hu <;> simp [ProfileUpdater.touchedKeys]
  · exact C1_untouched_keys_absent _ "01H8HKMDG8F4MN7PSRZ4YQYNVQ" "phone_number"
      (by intro u hu; fin_cases hu <;> simp [ProfileUpdater.touchedKeys])

/-- url.Values as used by the parameter builder: the client only ever calls
Set, which assigns a single value to a key, so the map model suffices. -/
def Values : Type := List (String × String)

/-- Values.Set from net/url as used by the Param appliers. -/
def valuesSet (fields : Values) (key value : String) : Values :=
  assocSet fields key value

/-- Values.Get: the current value of a query key, none when absent. -/
def valuesGet (fields : Values) (key : String) : Option String :=
  assocGet fields key

/-- An empty url.Values collection, as created at the start of GetProfiles
and GetEvents. -/
def emptyValues : Values := []

/-- minPageSize from src/operations/getprofiles/getprofiles.go. -/
def minPageSize : Int := 1

/-- maxPageSize from src/operations/getprofiles/getprofiles.go. -/
def maxPageSize : Int := 100

/-- defaultPageSize from src/operations/getprofiles/getprofiles.go. -/
def defaultPageSize : Int := 20

/-- WithPageSize from src/operations/getprofiles/getprofiles.go: clamps the
requested size into [minPageSize, maxPageSize] and returns a parameter that
sets the page[size] query key to its decimal rendering. -/
def WithPageSize (pageSize : Int) : Values → Values :=
  let ps :=
    if pageSize < minPageSize then minPageSize
    else if pageSize > maxPageSize then maxPageSize
    else pageSize
  fun fields => valuesSet fields "page[size]" (toString ps)

/-- WithDefaultPageSize from src/operations/getprofiles/getprofiles.go. -/
def WithDefaultPageSize : Values → Values :=
  WithPageSize defaultPageSize

/-- WithFields from src/operations/getprofiles/getprofiles.go: joins the
field names with commas and sets fields[profile] only when the joined
string is non-empty. -/
def WithFields (fieldName : List String) : Values → Values :=
  fun fields =>
    let names := String.intercalate "," fieldName
    if names ≠ "" then valuesSet fields "fields[profile]" names else fields

/-- C5: WithPageSize sets page[size] to 1 when the requested size is at most
0, to 100 when it exceeds 100, and to the requested size otherwise; when
unspecified the default parameter WithDefaultPageSize sets it to 20. -/
theorem C5_page_size_clamped (p : Int) (fields : Values) :
    (p ≤ 0 → valuesGet (WithPageSize p fields) "page[size]" = some "1") ∧
    (p > 100 → valuesGet (WithPageSize p fields) "page[size]" = some "100") ∧
    (1 ≤ p → p ≤ 100 → valuesGet (WithPageSize p fields) "page[size]" = some (toString p)) ∧
    valuesGet (WithDefaultPageSize fields) "page[size]" = some "20" := by
  have hget : ∀ (q : Int), valuesGet (WithPageSize q fields) "page[size]" =
      some (toString (if q < minPageSize then minPageSize
        else if q > maxPageSize then maxPageSize else q)) := by
    intro q
    show assocGet (assocSet fields "page[size]" _) "page[size]" = _
    rw [assocGet_set, if_pos rfl]
  refine ⟨fun hp => ?_, fun hp => ?_, fun h1 h2 => ?_, ?_⟩
  · rw [hget]
    have : p < minPageSize := by
      simp only [minPageSize]; omega
    rw [if_pos this]
    rfl
  · rw [hget]
    have hlt : ¬(p < minPageSize) := by
      simp only [minPageSize]; omega
    have hgt : p > maxPageSize := by
      simp only [maxPageSize]; omega
    rw [if_neg hlt, if_pos hgt]
    rfl
  · rw [hget]
    have hlt : ¬(p < minPageSize) := by
      simp only [minPageSize]; omega
    have hgt : ¬(p > maxPageSize) := by
      simp only [maxPageSize]; omega
    rw [if_neg hlt, if_neg hgt]
  · show valuesGet (WithPageSize defaultPageSize fields) "page[size]" = some "20"
    rw [hget]
    rfl

/-- C5 witness: the clamp evaluated at requested sizes -7, 350 and 42, and
the default parameter, on an empty query collection. -/
theorem C5_page_size_clamped_witness :
    valuesGet (WithPageSize (-7) emptyValues) "page[size]" = some "1" ∧
    valuesGet (WithPageSize 350 emptyValues) "page[size]" = some "100" ∧
    valuesGet (WithPageSize 42 emptyValues) "page[size]" = some (toString (42 : Int)) ∧
    valuesGet (WithDefaultPageSize emptyValues) "page[size]" = some "20" :=
  ⟨(C5_page_size_clamped (-7) emptyValues).1 (by decide),
   (C5_page_size_clamped 350 emptyValues).2.1 (by decide),
   (C5_page_size_clamped 42 emptyValues).2.2.1 (by decide) (by decide),
   (C5_page_size_clamped 0 emptyValues).2.2.2⟩

/-- C6 counterexample: the claim says a non-empty field-name list always sets
fields[profile] to the comma-join of the names, but WithFields tests the
joined string, not the list: for the non-empty list containing one empty
string the join is empty, so the key stays absent instead of being set. -/
theorem C6_counterexample :
    ([""] : List String) ≠ [] ∧
    valuesGet (WithFields [""] emptyValues) "fields[profile]" ≠
      some (String.intercalate "," [""]) := by
  constructor
  · decide
  · intro hcontra
    exact Option.noConfusion hcontra

/-- C6 amended: WithFields leaves the fields[profile] query key untouched
(in particular absent when it was absent) whenever the comma-join of the
names is empty, which covers the empty list; whenever the join is non-empty
it sets fields[profile] to the names joined with commas in the given
order. -/
theorem C6_fields_join (fieldName : List String) (fields : Values) :
    (String.intercalate "," fieldName = "" → WithFields fieldName fields = fields) ∧
    (String.intercalate "," fieldName ≠ "" →
      valuesGet (WithFields fieldName fields) "fields[profile]" =
        some (String.intercalate "," fieldName)) := by
  constructor
  · intro hempty
    show (if String.intercalate "," fieldName ≠ "" then _ else fields) = fields
    rw [if_neg (by simp [hempty])]
  · intro hne
    show assocGet (if String.intercalate "," fieldName ≠ "" then
        valuesSet fields "fields[profile]" (String.intercalate "," fieldName)
      else fields) "fields[profile]" = _
    rw [if_pos hne]
    show assocGet (assocSet fields "fields[profile]" _) "fields[profile]" = _
    rw [assocGet_set, if_pos rfl]

/-- C6 witness: a two-name list is joined in order, and the empty list is a
no-op leaving the key absent. -/
theorem C6_fields_join_witness :
    valuesGet (WithFields ["email", "phone_number"] emptyValues) "fields[profile]" =
      some "email,phone_number" ∧
    WithFields [] emptyValues = emptyValues := by
  constructor
  · exact (C6_fields_join ["email", "phone_number"] emptyValues).2 (by decide)
  · exact (C6_fields_join [] emptyValues).1 rfl

/-- APIError from src/klaviyo.go 76-89, with the nested Source and Meta
structs flattened into their single fields. -/
structure APIError where
  Id : String := ""
  Status : Nat := 0
  Code : String := ""
  Title : String := ""
  Detail : String := ""
  SourcePointer : String := ""
  MetaDuplicateProfileID : String := ""
deriving DecidableEq

/-- BadHTTPResponseError from src/klaviyo.go 109-131; the cause field keeps
the message of the JSON decode failure. -/
structure BadHTTPResponseError where
  statusCode : Nat
  body : String
  cause : String
deriving DecidableEq

/-- StatusCode accessor of BadHTTPResponseError. -/
def BadHTTPResponseError.StatusCode (e : BadHTTPResponseError) : Nat :=
  e.statusCode

/-- Body accessor of BadHTTPResponseError. -/
def BadHTTPResponseError.Body (e : BadHTTPResponseError) : String :=
  e.body

/-- Cause accessor of BadHTTPResponseError (pkg/errors style). -/
def BadHTTPResponseError.Cause (e : BadHTTPResponseError) : String :=
  e.cause

/-- Unwrap accessor of BadHTTPResponseError (errors.Is / errors.As chain). -/
def BadHTTPResponseError.UnwrapCause (e : BadHTTPResponseError) : String :=
  e.cause

/-- The error values a client call can return, covering the sentinel errors,
the typed errors and the wrapped API error payloads of src/klaviyo.go. The
multiError constructor stands for the hashicorp multierror chain built by
doReq from the decoded list; apiError stands for a bare APIError value (the
chain collapses to it when the list has a single element, and doReq builds
one directly for an empty decoded list). -/
inductive ClientError where
| errInvalidAPIKey
| errTooManyRequests
| errProfileDoesNotExist
| errProfileAlreadyExists (DuplicateProfileID : String)
| apiError (e : APIError)
| multiError (errs : List APIError)
| badHTTPResponse (e : BadHTTPResponseError)
| validationError (msg : String)
deriving DecidableEq

/-- multierror.Error.Unwrap as used at src/klaviyo.go 608: a single decoded
error is returned bare, several become the chain value. -/
def errorsFromList (errs : List APIError) : ClientError :=
  match errs with
  | [e] => ClientError.apiError e
  | _ => ClientError.multiError errs

/-- errors.As specialised to target type *APIError, as called inside
wrapAPIError: a bare APIError matches itself and the multierror chain
delegates As to its first element, so only the first decoded error object is
ever inspected. -/
def firstAPIError : ClientError → Option APIError
  | ClientError.apiError e => some e
  | ClientError.multiError errs => errs.head?
  | _ => none

/-- http.StatusConflict. -/
def httpStatusConflict : Nat := 409

/-- http.StatusNotFound. -/
def httpStatusNotFound : Nat := 404

/-- http.StatusUnauthorized. -/
def httpStatusUnauthorized : Nat := 401

/-- http.StatusTooManyRequests. -/
def httpStatusTooManyRequests : Nat := 429

/-- wrapAPIError from src/klaviyo.go 628-647: finds the first APIError in
the chain and maps status plus code to the semantic errors, returning the
incoming error unchanged when nothing matches. -/
def wrapAPIError (err : ClientError) : ClientError :=
  match firstAPIError err with
  | some apiErr =>
    if apiErr.Status = httpStatusConflict then
      if apiErr.Code = "duplicate_profile" then
        ClientError.errProfileAlreadyExists apiErr.MetaDuplicateProfileID
      else err
    else if apiErr.Status = httpStatusNotFound then
      if apiErr.Code = "not_found" then ClientError.errProfileDoesNotExist
      else err
    else if apiErr.Status = httpStatusUnauthorized then
      if apiErr.Code = "not_authenticated" ∨ apiErr.Code = "authentication_failed" then
        ClientError.errInvalidAPIKey
      else err
    else err
  | none => err

/-- The non-2xx handling of doReq (src/klaviyo.go 584-608). The JSON decode
of the error envelope is Go standard library work, external to the client,
so its outcome is passed in: a decode failure message, or the decoded list
of error objects (empty when the body held no errors array). -/
def handleErrorBody (statusCode : Nat) (body : String)
    (decoded : Except String (List APIError)) : ClientError :=
  match decoded with
  | Except.error jsErr =>
    ClientError.badHTTPResponse ⟨statusCode, body, jsErr⟩
  | Except.ok errList =>
    if errList.length = 0 then
      ClientError.apiError { Status := statusCode, Title := "Bad HTTP status", Detail := body }
    else wrapAPIError (errorsFromList errList)

/-- The response dispatch of doReq: statuses in [200, 300) succeed, any
other status goes through the error-body handling. -/
def doReqResponse (statusCode : Nat) (body : String)
    (decoded : Except String (List APIError)) : Option ClientError :=
  if statusCode < 200 ∨ 300 ≤ statusCode then
    some (handleErrorBody statusCode body decoded)
  else none

theorem firstAPIError_cons (e : APIError) (rest : List APIError) :
    firstAPIError (errorsFromList (e :: rest)) = some e := by
  cases rest <;> rfl

theorem wrapAPIError_cons (e : APIError) (rest : List APIError) :
    wrapAPIError (errorsFromList (e :: rest)) =
      (if e.Status = httpStatusConflict then
        (if e.Code = "duplicate_profile" then
          ClientError.errProfileAlreadyExists e.MetaDuplicateProfileID
         else errorsFromList (e :: rest))
       else if e.Status = httpStatusNotFound then
        (if e.Code = "not_found" then ClientError.errProfileDoesNotExist
         else errorsFromList (e :: rest))
       else if e.Status = httpStatusUnauthorized then
        (if e.Code = "not_authenticated" ∨ e.Code = "authentication_failed" then
          ClientError.errInvalidAPIKey
         else errorsFromList (e :: rest))
       else errorsFromList (e :: rest)) := by
  simp only [wrapAPIError, firstAPIError_cons]

/-- C2: every decoded API error list whose first element has Status 409,
Code duplicate_profile and Meta.DuplicateProfileID equal to some string x is
translated by wrapAPIError into ErrProfileAlreadyExists carrying exactly x. -/
theorem C2_duplicate_profile (e : APIError) (rest : List APIError) (x : String)
    (hs : e.Status = 409) (hc : e.Code = "duplicate_profile")
    (hm : e.MetaDuplicateProfileID = x) :
    wrapAPIError (errorsFromList (e :: rest)) =
      ClientError.errProfileAlreadyExists x := by
  rw [wrapAPIError_cons, if_pos (show e.Status = httpStatusConflict from hs), if_pos hc, hm]

/-- C2 witness: a concrete 409 duplicate_profile error carrying a duplicate
profile id is translated into the already-exists error with that id. -/
theorem C2_duplicate_profile_witness :
    wrapAPIError (errorsFromList
      [{ Id := "err1", Status := 409, Code := "duplicate_profile",
         Title := "Conflict", Detail := "duplicate",
         MetaDuplicateProfileID := "01H8HKMDG8F4MN7PSRZ4YQYNVQ" }]) =
      ClientError.errProfileAlreadyExists "01H8HKMDG8F4MN7PSRZ4YQYNVQ" :=
  C2_duplicate_profile _ [] "01H8HKMDG8F4MN7PSRZ4YQYNVQ" rfl rfl rfl

/-- C3: for a response status outside [200, 300) whose body fails to decode
as the error envelope, doReq returns a BadHTTPResponseError, and the HTTP
status code, the raw body and the decode failure stay retrievable through
StatusCode, Body and Cause or Unwrap; no other error kind occurs there. -/
theorem C3_bad_response (statusCode : Nat) (body jsErr : String)
    (hst : statusCode < 200 ∨ 300 ≤ statusCode) :
    doReqResponse statusCode body (Except.error jsErr) =
      some (ClientError.badHTTPResponse ⟨statusCode, body, jsErr⟩) ∧
    (BadHTTPResponseError.mk statusCode body jsErr).StatusCode = statusCode ∧
    (BadHTTPResponseError.mk statusCode body jsErr).Body = body ∧
    (BadHTTPResponseError.mk statusCode body jsErr).Cause = jsErr ∧
    (BadHTTPResponseError.mk statusCode body jsErr).UnwrapCause = jsErr := by
  refine ⟨?_, rfl, rfl, rfl, rfl⟩
  simp only [doReqResponse]
  rw [if_pos hst]
  rfl

/-- C3 witness: a 502 response with a non-JSON body yields the bad-response
error with that status, body and decode failure. -/
theorem C3_bad_response_witness :
    doReqResponse 502 "Bad Gateway" (Except.error "invalid character B") =
      some (ClientError.badHTTPResponse ⟨502, "Bad Gateway", "invalid character B"⟩) ∧
    (BadHTTPResponseError.mk 502 "Bad Gateway" "invalid character B").StatusCode = 502 :=
  ⟨(C3_bad_response 502 "Bad Gateway" "invalid character B" (by decide)).1,
   (C3_bad_response 502 "Bad Gateway" "invalid character B" (by decide)).2.1⟩

/-- C7: a decoded first error with Status 404 and Code not_found maps to the
sentinel ErrProfileDoesNotExist, and one with Status 401 and Code
not_authenticated or authentication_failed maps to the sentinel
ErrInvalidAPIKey. -/
theorem C7_sentinel_translation (e : APIError) (rest : List APIError) :
    (e.Status = 404 → e.Code = "not_found" →
      wrapAPIError (errorsFromList (e :: rest)) = ClientError.errProfileDoesNotExist) ∧
    (e.Status = 401 →
      (e.Code = "not_authenticated" ∨ e.Code = "authentication_failed") →
      wrapAPIError (errorsFromList (e :: rest)) = ClientError.errInvalidAPIKey) := by
  constructor
  · intro hs hc
    have hne : ¬(e.Status = httpStatusConflict) := by rw [hs]; decide
    rw [wrapAPIError_cons, if_neg hne, if_pos (show e.Status = httpStatusNotFound from hs), if_pos hc]
  · intro hs hc
    have hne1 : ¬(e.Status = httpStatusConflict) := by rw [hs]; decide
    have hne2 : ¬(e.Status = httpStatusNotFound) := by rw [hs]; decide
    rw [wrapAPIError_cons, if_neg hne1, if_neg hne2, if_pos (show e.Status = httpStatusUnauthorized from hs), if_pos hc]

/-- C7 witness: concrete 404 not_found and 401 authentication_failed errors
translate to the respective sentinels. -/
theorem C7_sentinel_translation_witness :
    wrapAPIError (errorsFromList
      [{ Status := 404, Code := "not_found", Title := "Not Found" }]) =
      ClientError.errProfileDoesNotExist ∧
    wrapAPIError (errorsFromList
      [{ Status := 401, Code := "authentication_failed", Title := "Unauthorized" }]) =
      ClientError.errInvalidAPIKey :=
  ⟨(C7_sentinel_translation _ []).1 rfl rfl,
   (C7_sentinel_translation _ []).2 rfl (Or.inr rfl)⟩

/-- A first error object classifies when its status and code pair matches
one of the three semantic cases of wrapAPIError. -/
def classifiable (e : APIError) : Bool :=
  (decide (e.Status = httpStatusConflict) && decide (e.Code = "duplicate_profile")) ||
  (decide (e.Status = httpStatusNotFound) && decide (e.Code = "not_found")) ||
  (decide (e.Status = httpStatusUnauthorized) &&
    (decide (e.Code = "not_authenticated") || decide (e.Code = "authentication_failed")))

/-- C9: the semantic classification of a decoded non-empty error list
depends only on its first element: when the first classifies, replacing the
later elements never changes the wrapAPIError result, and when the first
does not classify, wrapAPIError returns the chain holding all decoded error
objects unchanged for generic reporting. -/
theorem C9_first_error_decides (e : APIError) (rest rest2 : List APIError) :
    (classifiable e = true →
      wrapAPIError (errorsFromList (e :: rest)) =
        wrapAPIError (errorsFromList (e :: rest2))) ∧
    (classifiable e = false →
      wrapAPIError (errorsFromList (e :: rest)) = errorsFromList (e :: rest)) := by
  constructor
  · intro hcl
    have hcl2 : ((e.Status = httpStatusConflict ∧ e.Code = "duplicate_profile") ∨
        (e.Status = httpStatusNotFound ∧ e.Code = "not_found")) ∨
        (e.Status = httpStatusUnauthorized ∧
          (e.Code = "not_authenticated" ∨ e.Code = "authentication_failed")) := by
      simpa [classifiable] using hcl
    rw [wrapAPIError_cons, wrapAPIError_cons]
    rcases hcl2 with (⟨h1, h2⟩ | ⟨h1, h2⟩) | ⟨h1, h2⟩
    · rw [if_pos h1, if_pos h2, if_pos h1, if_pos h2]
    · have hne : ¬(e.Status = httpStatusConflict) := by rw [h1]; decide
      rw [if_neg hne, if_pos h1, if_pos h2, if_neg hne, if_pos h1, if_pos h2]
    · have hne1 : ¬(e.Status = httpStatusConflict) := by rw [h1]; decide
      have hne2 : ¬(e.Status = httpStatusNotFound) := by rw [h1]; decide
      rw [if_neg hne1, if_neg hne2, if_pos h1, if_pos h2,
        if_neg hne1, if_neg hne2, if_pos h1, if_pos h2]
  · intro hcl
    rw [wrapAPIError_cons]
    by_cases h1 : e.Status = httpStatusConflict
    · by_cases h2 : e.Code = "duplicate_profile"
      · exfalso
        have : classifiable e = true := by simp [classifiable, h1, h2]
        rw [this] at hcl
        exact Bool.noConfusion hcl
      · rw [if_pos h1, if_neg h2]
    · by_cases h3 : e.Status = httpStatusNotFound
      · by_cases h4 : e.Code = "not_found"
        · exfalso
          have : classifiable e = true := by simp [classifiable, h3, h4]
          rw [this] at hcl
          exact Bool.noConfusion hcl
        · rw [if_neg h1, if_pos h3, if_neg h4]
      · by_cases h5 : e.Status = httpStatusUnauthorized
        · by_cases h6 : e.Code = "not_authenticated" ∨ e.Code = "authentication_failed"
          · exfalso
            have : classifiable e = true := by
              rcases h6 with h6 | h6 <;> simp [classifiable, h5, h6]
            rw [this] at hcl
            exact Bool.noConfusion hcl
          · rw [if_neg h1, if_neg h3, if_pos h5, if_neg h6]
        · rw [if_neg h1, if_neg h3, if_neg h5]

/-- C9 witness: a classifying 404 head gives the same sentinel whatever
follows it, and a non-classifying 500 head is returned with the whole chain
intact. -/
theorem C9_first_error_decides_witness :
    wrapAPIError (errorsFromList
      [{ Status := 404, Code := "not_found" },
       { Status := 409, Code := "duplicate_profile", MetaDuplicateProfileID := "DUP" }]) =
      wrapAPIError (errorsFromList [{ Status := 404, Code := "not_found" }]) ∧
    wrapAPIError (errorsFromList
      [{ Status := 500, Code := "server_error" },
       { Status := 404, Code := "not_found" }]) =
      errorsFromList
        [{ Status := 500, Code := "server_error" },
         { Status := 404, Code := "not_found" }] :=
  ⟨(C9_first_error_decides { Status := 404, Code := "not_found" }
      [{ Status := 409, Code := "duplicate_profile", MetaDuplicateProfileID := "DUP" }]
      []).1 (by decide),
   (C9_first_error_decides { Status := 500, Code := "server_error" }
      [{ Status := 404, Code := "not_found" }]
      []).2 (by decide)⟩

/-- C10: a non-2xx response whose body decodes as the envelope with zero
error objects yields a bare generic APIError whose Status is the HTTP
status, whose Title is Bad HTTP status and whose Detail is the raw body,
not a BadHTTPResponseError and not a sentinel. -/
theorem C10_empty_error_list (statusCode : Nat) (body : String)
    (hst : statusCode < 200 ∨ 300 ≤ statusCode) :
    doReqResponse statusCode body (Except.ok []) =
      some (ClientError.apiError
        { Id := "", Status := statusCode, Code := "", Title := "Bad HTTP status",
          Detail := body, SourcePointer := "", MetaDuplicateProfileID := "" }) := by
  simp only [doReqResponse]
  rw [if_pos hst]
  rfl

/-- C10 witness: a 503 response with an empty errors array becomes the
generic APIError carrying the status and raw body. -/
theorem C10_empty_error_list_witness :
    doReqResponse 503 "service down" (Except.ok []) =
      some (ClientError.apiError
        { Id := "", Status := 503, Code := "", Title := "Bad HTTP status",
          Detail := "service down", SourcePointer := "", MetaDuplicateProfileID := "" }) :=
  C10_empty_error_list 503 "service down" (by decide)

/-- An HTTP response as seen by the retry transport hook: only the status
code matters to errorHandler. -/
structure HTTPResponse where
  StatusCode : Nat
deriving DecidableEq

/-- errorHandler from src/klaviyo.go 616-626: the hook installed on the
retrying transport. A transport error passes through unchanged; otherwise a
429 status is replaced by the ErrTooManyRequests sentinel before any body
decoding happens. -/
def errorHandler (resp : HTTPResponse) (err : Option ClientError) :
    HTTPResponse × Option ClientError :=
  match err with
  | some e => (resp, some e)
  | none =>
    if resp.StatusCode = httpStatusTooManyRequests then
      (resp, some ClientError.errTooManyRequests)
    else (resp, none)

/-- C8: with no transport error, a 429 response is replaced by the
ErrTooManyRequests sentinel by the transport response hook, before body
decoding; with a non-nil transport error, the hook propagates that error
unchanged. -/
theorem C8_too_many_requests (resp : HTTPResponse) :
    (resp.StatusCode = 429 →
      errorHandler resp none = (resp, some ClientError.errTooManyRequests)) ∧
    (∀ e : ClientError, errorHandler resp (some e) = (resp, some e)) := by
  constructor
  · intro h429
    simp only [errorHandler]
    rw [if_pos (show resp.StatusCode = httpStatusTooManyRequests from h429)]
  · intro e
    rfl

/-- C8 witness: a 429 response without transport error becomes the sentinel,
and an existing transport error on a 429 response passes through as is. -/
theorem C8_too_many_requests_witness :
    errorHandler ⟨429⟩ none = (⟨429⟩, some ClientError.errTooManyRequests) ∧
    errorHandler ⟨429⟩ (some (ClientError.validationError "boom")) =
      (⟨429⟩, some (ClientError.validationError "boom")) :=
  ⟨(C8_too_many_requests ⟨429⟩).1 rfl,
   (C8_too_many_requests ⟨429⟩).2 (ClientError.validationError "boom")⟩

/-- BulkProfileAttributes from src/klaviyo.go 436-444. -/
structure BulkProfileAttributes where
  Email : String := ""
  Properties : List (String × Json) := []
  PhoneNumber : Option String := none
  ExternalId : Option String := none
  FirstName : Option String := none
  LastName : Option String := none

/-- BulkProfileData from src/klaviyo.go 447-450: one profile record tagged
with its resource type inside the bulk job. -/
structure BulkProfileData where
  ResourceType : String
  Attributes : BulkProfileAttributes

/-- BulkImportJobAttributes from src/klaviyo.go 453-457: the profiles array
of the job envelope. -/
structure BulkImportJobAttributes where
  ProfilesData : List BulkProfileData

/-- The job-creation request envelope built by
Client.BulkCreateOrUpdateProfiles. -/
structure BulkImportJobRequest where
  ResourceType : String
  Attributes : BulkImportJobAttributes

/-- BulkImportJobResponse from src/klaviyo.go 460-475, attribute fields
flattened; timestamps kept as strings. -/
structure BulkImportJobResponse where
  ResourceType : String := ""
  ID : String := ""
  Status : String := ""
  CreatedAt : String := ""
  TotalCount : Nat := 0
  CompletedCount : Nat := 0
  FailedCount : Nat := 0
  CompletedAt : Option String := none
  ExpiresAt : String := ""
  StartedAt : Option String := none

/-- The envelope wrapping every supplied profile record, each tagged with
the profile resource type, under the job type. -/
def buildBulkImportRequest (profiles : List BulkProfileAttributes) :
    BulkImportJobRequest :=
  { ResourceType := profileBulkImportJobType
    Attributes :=
      { ProfilesData := profiles.map fun p =>
          { ResourceType := profileType, Attributes := p } } }

/-- Client.BulkCreateOrUpdateProfiles from src/klaviyo.go 505-541. The
network side of doReq is the external transport, passed in as send; the
second component of the result is the list of requests actually sent, so
the local validation paths are visibly request-free. -/
def BulkCreateOrUpdateProfiles
    (send : BulkImportJobRequest → Except ClientError BulkImportJobResponse)
    (profiles : List BulkProfileAttributes) :
    Except ClientError String × List BulkImportJobRequest :=
  if profiles.length = 0 then
    (Except.error (ClientError.validationError "klaviyo: profiles slice cannot be empty"), [])
  else if profiles.length > 10000 then
    (Except.error (ClientError.validationError "klaviyo: maximum 10,000 profiles per bulk import job"), [])
  else
    let request := buildBulkImportRequest profiles
    match send request with
    | Except.ok resp => (Except.ok resp.ID, [request])
    | Except.error e => (Except.error e, [request])

/-- C4: an empty profiles slice gives a local validation error with no
request sent; more than 10,000 profiles gives a local validation error with
no request sent; for 1 to 10,000 profiles exactly one job-creation request
is sent, wrapping every supplied profile record tagged with the profile
type, and a successful send returns the job id of the response. -/
theorem C4_bulk_import_bounds
    (send : BulkImportJobRequest → Except ClientError BulkImportJobResponse)
    (profiles : List BulkProfileAttributes) :
    (profiles.length = 0 →
      BulkCreateOrUpdateProfiles send profiles =
        (Except.error (ClientError.validationError "klaviyo: profiles slice cannot be empty"), [])) ∧
    (profiles.length > 10000 →
      BulkCreateOrUpdateProfiles send profiles =
        (Except.error (ClientError.validationError "klaviyo: maximum 10,000 profiles per bulk import job"), [])) ∧
    (1 ≤ profiles.length → profiles.length ≤ 10000 →
      (BulkCreateOrUpdateProfiles send profiles).2 = [buildBulkImportRequest profiles] ∧
      ((buildBulkImportRequest profiles).Attributes.ProfilesData.map
          fun d => d.Attributes) = profiles ∧
      (∀ d ∈ (buildBulkImportRequest profiles).Attributes.ProfilesData,
        d.ResourceType = profileType) ∧
      (∀ resp : BulkImportJobResponse,
        send (buildBulkImportRequest profiles) = Except.ok resp →
        (BulkCreateOrUpdateProfiles send profiles).1 = Except.ok resp.ID)) := by
  refine ⟨fun h0 => ?_, fun hover => ?_, fun h1 h2 => ?_⟩
  · simp only [BulkCreateOrUpdateProfiles]
    rw [if_pos h0]
  · have hne : ¬(profiles.length = 0) := by omega
    simp only [BulkCreateOrUpdateProfiles]
    rw [if_neg hne, if_pos hover]
  · have hne : ¬(profiles.length = 0) := by omega
    have hle : ¬(profiles.length > 10000) := by omega
    have hsend : BulkCreateOrUpdateProfiles send profiles =
        (match send (buildBulkImportRequest profiles) with
          | Except.ok resp => (Except.ok resp.ID, [buildBulkImportRequest profiles])
          | Except.error e => (Except.error e, [buildBulkImportRequest profiles])) := by
      simp only [BulkCreateOrUpdateProfiles]
      rw [if_neg hne, if_neg hle]
    refine ⟨?_, ?_, ?_, ?_⟩
    · rw [hsend]
      cases send (buildBulkImportRequest profiles) <;> rfl
    · simp only [buildBulkImportRequest, List.map_map]
      exact List.map_id profiles
    · intro d hd
      simp only [buildBulkImportRequest, List.mem_map] at hd
      rcases hd with ⟨p, _, rfl⟩
      rfl
    · intro resp hresp
      rw [hsend, hresp]

/-- C4 witness: the empty slice and a 10,001-element slice are rejected
locally with no request, while a singleton slice sends one wrapped request
and a successful send returns the job id. -/
theorem C4_bulk_import_bounds_witness :
    BulkCreateOrUpdateProfiles (fun _ => Except.ok { ID := "job-42" }) [] =
      (Except.error (ClientError.validationError "klaviyo: profiles slice cannot be empty"), []) ∧
    BulkCreateOrUpdateProfiles (fun _ => Except.ok { ID := "job-42" })
        (List.replicate 10001 { Email := "u@example.com" }) =
      (Except.error (ClientError.validationError "klaviyo: maximum 10,000 profiles per bulk import job"), []) ∧
    (BulkCreateOrUpdateProfiles (fun _ => Except.ok { ID := "job-42" })
        [{ Email := "u@example.com" }]).2 =
      [buildBulkImportRequest [{ Email := "u@example.com" }]] ∧
    (BulkCreateOrUpdateProfiles (fun _ => Except.ok { ID := "job-42" })
        [{ Email := "u@example.com" }]).1 = Except.ok "job-42" := by
  refine ⟨?_, ?_, ?_, ?_⟩
  · exact (C4_bulk_import_bounds _ []).1 rfl
  · exact (C4_bulk_import_bounds _ _).2.1
      (by rw [List.length_replicate]; omega)
  · exact ((C4_bulk_import_bounds _ _).2.2 (by decide) (by decide)).1
  · exact (((C4_bulk_import_bounds _ _).2.2 (by decide) (by decide)).2.2.2
      { ID := "job-42" } rfl)
